import Mathlib

/-!
# Verification of the httpie request-assembly and outcome-mapping core

Shallow embedding of `httpie/core.py`: the `get_requests_kwargs` builder,
the `get_exist_status` exit-status mapping, and the `main` driver, together
with proofs of the specified properties.

Python dictionaries with string keys are embedded as association lists with
unique keys kept in insertion order; assignment updates in place or appends,
and membership tests compare the exact key string, as Python `dict` does.
-/

/-- Process exit status. Modelled from the spec: the numeric `EXIT` constants
live in `httpie/__init__.py`, outside the sources given here; §6 of the spec
fixes an enumeration with `OK = 0` and distinct nonzero codes for the rest. -/
inductive ExitStatus where
  | OK
  | ERROR
  | ERROR_TIMEOUT
  | ERROR_HTTP_3XX
  | ERROR_HTTP_4XX
  | ERROR_HTTP_5XX
deriving DecidableEq, Repr

/-- Python truthiness of an `EXIT` status. Modelled from the spec: `OK` is 0,
hence falsy; every other status is a distinct nonzero, hence truthy
(used by `if status and not env.stdout_isatty` in `main`). -/
def statusTruthy : ExitStatus → Bool
  | .OK => false
  | _ => true

/-- `get_exist_status` from `core.py`: translate an HTTP status code to an
exit status. -/
def get_exist_status (code : Int) (allow_redirects : Bool) : ExitStatus :=
  if 300 ≤ code ∧ code ≤ 399 ∧ allow_redirects = false then
    ExitStatus.ERROR_HTTP_3XX
  else if 400 ≤ code ∧ code ≤ 499 then
    ExitStatus.ERROR_HTTP_4XX
  else if 500 ≤ code ∧ code ≤ 599 then
    ExitStatus.ERROR_HTTP_5XX
  else
    ExitStatus.OK

/-- Python `k in d` on a string-keyed dict: exact key comparison. -/
def dictContains (d : List (String × String)) (k : String) : Bool :=
  match d with
  | [] => false
  | kv :: rest => kv.1 == k || dictContains rest k

/-- Python `d[k] = v` on a string-keyed dict: replace in place when the key
is present, append otherwise. -/
def dictSet (d : List (String × String)) (k v : String) : List (String × String) :=
  match d with
  | [] => [(k, v)]
  | kv :: rest => if kv.1 == k then (k, v) :: rest else kv :: dictSet rest k v

/-- Python `d.get(k)` / `d[k]` on a string-keyed dict. -/
def dictLookup (d : List (String × String)) (k : String) : Option String :=
  match d with
  | [] => Option.none
  | kv :: rest => if kv.1 == k then some kv.2 else dictLookup rest k

/-- `dict(pairs)` as used for the proxy mapping: fold the pairs in order,
so duplicate keys are last-wins. -/
def dictOfPairs (ps : List (String × String)) : List (String × String) :=
  ps.foldl (fun d p => dictSet d p.1 p.2) []

/-- The request body slot `args.data`: Python `None`, a raw string, or a
key/value `dict` parsed from the arguments. -/
inductive RequestData where
  | none
  | str (s : String)
  | dict (d : List (String × String))
deriving DecidableEq, Repr

/-- Python truthiness of `args.data`: `None` and empty containers are falsy. -/
def dataTruthy : RequestData → Bool
  | .none => false
  | .str s => s ≠ ""
  | .dict d => !d.isEmpty

/-- One character of the JSON string escaping performed by the standard
library serializer (`json.dumps`), which is external to the sources; the
common escapes are modelled, `\uXXXX` escaping of other control characters
is elided (no property here depends on it). -/
def jsonEscapeChar (c : Char) : String :=
  if c = '\\' then "\\\\"
  else if c = '"' then "\\\""
  else if c = '\n' then "\\n"
  else if c = '\r' then "\\r"
  else if c = '\t' then "\\t"
  else String.singleton c

/-- JSON escaping of a whole string. -/
def jsonEscape (s : String) : String :=
  String.join (s.toList.map jsonEscapeChar)

/-- `json.dumps` on a string-to-string dict with the default separators:
`\x7b"k": "v", "k2": "v2"\x7d`. Models the external standard-library
serializer on the shapes `core.py` feeds it. -/
def jsonDumps (d : List (String × String)) : String :=
  "\x7b" ++
    String.intercalate ", "
      (d.map (fun kv => "\"" ++ jsonEscape kv.1 ++ "\": \"" ++ jsonEscape kv.2 ++ "\"")) ++
  "\x7d"

/-- The resolved TLS `verify` value: Python `True`/`False` or a CA-bundle
path string passed through. -/
inductive VerifyPolicy where
  | bool (b : Bool)
  | path (s : String)
deriving DecidableEq, Repr

/-- `\x7b'yes': True, 'no': False\x7d.get(args.verify, args.verify)` from
`core.py`. -/
def resolveVerify (v : String) : VerifyPolicy :=
  if v = "yes" then VerifyPolicy.bool true
  else if v = "no" then VerifyPolicy.bool false
  else VerifyPolicy.path v

/-- The credential object built from the auth pair: `requests.auth.HTTPBasicAuth`
or `requests.auth.HTTPDigestAuth` applied to `(args.auth.key, args.auth.value)`. -/
inductive Credentials where
  | basic (user password : String)
  | digest (user password : String)
deriving DecidableEq, Repr

/-- The failure raised by the auth dict lookup in `get_requests_kwargs` when
`args.auth_type` is neither `basic` nor `digest` (a Python `KeyError`,
the spec's ConfigurationError); carries the offending key. -/
structure ConfigError where
  badAuthType : String
deriving DecidableEq, Repr

/-- Auth resolution from `core.py`: when an auth pair is present, index the
two-entry dict `\x7b'basic': ..., 'digest': ...\x7d` with `args.auth_type`;
any other key raises. -/
def resolveAuth (auth : Option (String × String)) (auth_type : String) :
    Except ConfigError (Option Credentials) :=
  match auth with
  | Option.none => Except.ok Option.none
  | some kv =>
    if auth_type = "basic" then Except.ok (some (Credentials.basic kv.1 kv.2))
    else if auth_type = "digest" then Except.ok (some (Credentials.digest kv.1 kv.2))
    else Except.error ⟨auth_type⟩

/-- The structured argument object produced by the external parser
(`args` in `core.py`). Fields are the ones `core.py` reads. The spec's §3
invariant: the `json` and `form` flags are mutually exclusive intents. -/
structure Arguments where
  method : String
  url : String
  headers : List (String × String)
  data : RequestData
  files : List (String × String)
  params : List (String × String)
  json : Bool
  form : Bool
  auth : Option (String × String)
  auth_type : String
  verify : String
  timeout : Nat
  proxy : List (String × String)
  allow_redirects : Bool
  check_status : Bool
  stream : Bool
deriving DecidableEq, Repr

/-- The `Content-Type` value injected for form intent (`FORM` in `core.py`). -/
def FORM : String := "application/x-www-form-urlencoded; charset=utf-8"

/-- The `Content-Type` value injected for JSON intent (`JSON` in `core.py`). -/
def JSON : String := "application/json; charset=utf-8"

/-- The keyword-argument record handed to `requests.request` (the spec's
RequestSpec). -/
structure Kwargs where
  prefetch : Bool
  method : String
  url : String
  headers : List (String × String)
  data : RequestData
  verify : VerifyPolicy
  timeout : Nat
  auth : Option Credentials
  proxies : List (String × String)
  files : List (String × String)
  allow_redirects : Bool
  params : List (String × String)
deriving DecidableEq, Repr

/-- `auto_json` from `core.py`: `args.data and not args.form`. -/
def auto_json (args : Arguments) : Bool :=
  dataTruthy args.data && !args.form

/-- The header/data mutation stage of `get_requests_kwargs` (lines 39-57 of
`core.py`): `core.py` performs these as in-place updates of `args`; the
embedding returns the updated `Arguments`. -/
def applyContentRules (args : Arguments) : Arguments :=
  if args.json || auto_json args then
    let h1 := if !dictContains args.headers "Content-Type" && dataTruthy args.data
              then dictSet args.headers "Content-Type" JSON
              else args.headers
    let h2 := if !dictContains h1 "Accept"
              then dictSet h1 "Accept" "application/json"
              else h1
    let d := match args.data with
             | RequestData.dict m =>
                 if m.isEmpty then RequestData.none else RequestData.str (jsonDumps m)
             | other => other
    { args with headers := h2, data := d }
  else if args.form then
    if args.files.isEmpty && !dictContains args.headers "Content-Type"
    then { args with headers := dictSet args.headers "Content-Type" FORM }
    else args
  else
    args

/-- Assembly of the `kwargs` record (lines 66-82 of `core.py`) from the
(already mutated) arguments and the resolved credentials. -/
def assembleKwargs (args : Arguments) (credentials : Option Credentials) : Kwargs :=
  { prefetch := false
    method := args.method.toLower
    url := args.url
    headers := args.headers
    data := args.data
    verify := resolveVerify args.verify
    timeout := args.timeout
    auth := credentials
    proxies := dictOfPairs args.proxy
    files := args.files
    allow_redirects := args.allow_redirects
    params := args.params }

/-- `get_requests_kwargs` from `core.py`. The Python function mutates `args`
in place; the embedding returns the mutated `Arguments` alongside the kwargs
record, and the `KeyError` of an unknown `auth_type` becomes the error case. -/
def get_requests_kwargs (args0 : Arguments) :
    Except ConfigError (Arguments × Kwargs) :=
  let args := applyContentRules args0
  (resolveAuth args.auth args.auth_type).map
    (fun credentials => (args, assembleKwargs args credentials))

/-- The response as seen by the driver: `response.status_code` plus the raw
status line pieces (`response.raw.status`, `response.raw.reason`) used for the
check-status error line. The response object itself is built by the external
transport. -/
structure Response where
  status_code : Int
  rawStatus : Int
  rawReason : String
deriving DecidableEq, Repr

/-- Outcome of the external `requests.request` call: a response, a
`requests.Timeout`, a `KeyboardInterrupt`/`SystemExit` delivered during the
exchange, or any other exception (kind name and message text). -/
inductive TransportOutcome where
  | success (resp : Response)
  | timeout
  | interrupt
  | failure (kind msg : String)
deriving DecidableEq, Repr

/-- Outcome of the external `write` loop over the output stream: success, an
`IOError` carrying its `errno` and message, or a `KeyboardInterrupt`
delivered mid-write. -/
inductive WriteOutcome where
  | success
  | ioError (errnoVal : Nat) (msg : String)
  | interrupt
deriving DecidableEq, Repr

/-- `errno.EPIPE` on POSIX systems. -/
def EPIPE : Nat := 32

/-- The environment capability bundle `env`: the interactivity flag. The
driver's writes to `env.stderr` are tracked as the accumulated string in
`MainResult`; the `--debug` version preamble goes to the process-level
`sys.stderr`, which is a different sink and is not part of it. -/
structure Env where
  stdout_isatty : Bool
deriving DecidableEq, Repr

/-- A Python exception escaping `main` when diagnostic mode disables a
local catch. -/
inductive PyExc where
  | keyboardInterrupt
  | ioError (errnoVal : Nat) (msg : String)
  | generic (kind msg : String)
  | configError (badAuthType : String)
deriving DecidableEq, Repr

/-- Result of a `main` run: either a returned exit status or a propagated
exception, in both cases with the full text written to `env.stderr`. -/
inductive MainResult where
  | exited (status : ExitStatus) (stderrText : String)
  | raised (exc : PyExc) (stderrText : String)
deriving DecidableEq, Repr

/-- The local `error` helper of `main`: the text written to `env.stderr` is
a leading newline, the fixed `http: error: ` tag, the message, and a closing
newline. -/
def errLine (msg : String) : String :=
  "\nhttp: error: " ++ msg ++ "\n"

/-- Python `str(KeyError(k))`: the repr of the missing key, an
apostrophe-quoted string. -/
def keyErrorText (k : String) : String :=
  String.singleton (Char.ofNat 39) ++ k ++ String.singleton (Char.ofNat 39)

/-- The check-status stage of `main` (lines 132-136 of `core.py`): the exit
status computed from the response, and the stderr text this stage writes
(the raw status line, only when the status is truthy and stdout is not a
terminal). -/
def checkStage (args : Arguments) (env : Env) (resp : Response) :
    ExitStatus × String :=
  if args.check_status then
    let status := get_exist_status resp.status_code args.allow_redirects
    if statusTruthy status && !env.stdout_isatty then
      (status, errLine (toString resp.rawStatus ++ " " ++ resp.rawReason))
    else
      (status, "")
  else
    (ExitStatus.OK, "")

/-- The driver `main` from `core.py`, with the external calls replaced by
their outcomes: `rawDebug`/`rawTraceback` are the membership tests of
`--debug` and `--traceback` in the raw argument list, `args0` the result of
the external parse, `transport` the outcome of `requests.request`, and
`writeRes` the outcome of the output write loop. The try/except cascade is
reproduced branch by branch: a `KeyError` from the auth lookup and a
re-raised `IOError` both land in `except Exception`; `requests.Timeout` is
caught unconditionally; `KeyboardInterrupt`/`SystemExit` and the broken-pipe
swallowing consult the `traceback` flag. -/
def mainRun (rawDebug rawTraceback : Bool) (args0 : Arguments) (env : Env)
    (transport : TransportOutcome) (writeRes : WriteOutcome) : MainResult :=
  let traceback := rawDebug || rawTraceback
  match get_requests_kwargs args0 with
  | Except.error e =>
      if traceback then
        MainResult.raised (PyExc.configError e.badAuthType) ""
      else
        MainResult.exited ExitStatus.ERROR
          (errLine ("KeyError: " ++ keyErrorText e.badAuthType))
  | Except.ok r =>
    let args := r.1
    match transport with
    | TransportOutcome.timeout =>
        MainResult.exited ExitStatus.ERROR_TIMEOUT
          (errLine ("Request timed out (" ++ toString args.timeout ++ "s)."))
    | TransportOutcome.interrupt =>
        if traceback then MainResult.raised PyExc.keyboardInterrupt ""
        else MainResult.exited ExitStatus.ERROR "\n"
    | TransportOutcome.failure kind msg =>
        if traceback then MainResult.raised (PyExc.generic kind msg) ""
        else MainResult.exited ExitStatus.ERROR (errLine (kind ++ ": " ++ msg))
    | TransportOutcome.success resp =>
        let cs := checkStage args env resp
        match writeRes with
        | WriteOutcome.success => MainResult.exited cs.1 cs.2
        | WriteOutcome.interrupt =>
            if traceback then MainResult.raised PyExc.keyboardInterrupt cs.2
            else MainResult.exited ExitStatus.ERROR (cs.2 ++ "\n")
        | WriteOutcome.ioError e m =>
            if !traceback && e == EPIPE then
              MainResult.exited cs.1 (cs.2 ++ "\n")
            else if traceback then
              MainResult.raised (PyExc.ioError e m) cs.2
            else
              MainResult.exited ExitStatus.ERROR (cs.2 ++ errLine ("IOError: " ++ m))

/-- A concrete argument set: a GET with a one-entry data dict, no flags, no
auth — the implicit-JSON shape. -/
def sampleArgsJson : Arguments :=
  { method := "GET"
    url := "http://example.org/"
    headers := []
    data := RequestData.dict [("name", "John")]
    files := []
    params := []
    json := false
    form := false
    auth := Option.none
    auth_type := "basic"
    verify := "yes"
    timeout := 5
    proxy := []
    allow_redirects := false
    check_status := false
    stream := false }

/-- A concrete argument set with digest credentials. -/
def sampleArgsDigest : Arguments :=
  { sampleArgsJson with auth := some ("u", "p"), auth_type := "digest" }

/-- A concrete argument set with credentials under an unrecognized auth type. -/
def sampleArgsBadAuth : Arguments :=
  { sampleArgsJson with auth := some ("u", "p"), auth_type := "token" }

/-- A concrete argument set: form intent with an attached file. -/
def sampleArgsForm : Arguments :=
  { sampleArgsJson with
      data := RequestData.dict [("a", "b")]
      form := true
      files := [("f", "report.pdf")] }

/-- A concrete argument set: explicit json flag with an empty data dict. -/
def sampleArgsEmptyJson : Arguments :=
  { sampleArgsJson with json := true, data := RequestData.dict [] }

/-- A concrete argument set: lower-case `content-type` header already present
under implicit JSON intent. -/
def sampleArgsLowerCT : Arguments :=
  { sampleArgsJson with headers := [("content-type", "text/plain")] }

/-- A concrete non-interactive environment. -/
def sampleEnv : Env := { stdout_isatty := false }

/-- A concrete response. -/
def sampleResp : Response :=
  { status_code := 200, rawStatus := 200, rawReason := "OK" }

/-- Projection of a build result onto the (possibly mutated) argument object. -/
def mutatedOf : Except ConfigError (Arguments × Kwargs) → Option Arguments
  | Except.ok r => some r.1
  | Except.error _ => Option.none

/-! ## Helper lemmas -/

theorem dictContains_dictSet_self (d : List (String × String)) (k v : String) :
    dictContains (dictSet d k v) k = true := by
  induction d with
  | nil => simp [dictSet, dictContains]
  | cons kv rest ih =>
    by_cases h : kv.1 = k
    · simp [dictSet, dictContains, h]
    · simp only [dictSet, beq_iff_eq, h, if_false, dictContains, ih, Bool.or_true]

theorem dictContains_dictSet_other (d : List (String × String)) (k v k' : String)
    (h : k ≠ k') : dictContains (dictSet d k v) k' = dictContains d k' := by
  induction d with
  | nil => simp [dictSet, dictContains, h]
  | cons kv rest ih =>
    by_cases hk : kv.1 = k
    · simp [dictSet, dictContains, hk, h]
    · simp only [dictSet, beq_iff_eq, hk, if_false, dictContains, ih]

theorem dictLookup_dictSet_self (d : List (String × String)) (k v : String) :
    dictLookup (dictSet d k v) k = some v := by
  induction d with
  | nil => simp [dictSet, dictLookup]
  | cons kv rest ih =>
    by_cases h : kv.1 = k
    · simp [dictSet, dictLookup, h]
    · simp only [dictSet, beq_iff_eq, h, if_false, dictLookup, ih]

theorem dictLookup_dictSet_other (d : List (String × String)) (k v k' : String)
    (h : k ≠ k') : dictLookup (dictSet d k v) k' = dictLookup d k' := by
  induction d with
  | nil => simp [dictSet, dictLookup, h]
  | cons kv rest ih =>
    by_cases hk : kv.1 = k
    · subst hk
      simp [dictSet, dictLookup, h]
    · simp only [dictSet, beq_iff_eq, hk, if_false, dictLookup, ih]

/-- `applyContentRules` touches only the `headers` and `data` fields. -/
theorem applyContentRules_preserves (a : Arguments) :
    (applyContentRules a).method = a.method
  ∧ (applyContentRules a).url = a.url
  ∧ (applyContentRules a).files = a.files
  ∧ (applyContentRules a).params = a.params
  ∧ (applyContentRules a).json = a.json
  ∧ (applyContentRules a).form = a.form
  ∧ (applyContentRules a).auth = a.auth
  ∧ (applyContentRules a).auth_type = a.auth_type
  ∧ (applyContentRules a).verify = a.verify
  ∧ (applyContentRules a).timeout = a.timeout
  ∧ (applyContentRules a).proxy = a.proxy
  ∧ (applyContentRules a).allow_redirects = a.allow_redirects
  ∧ (applyContentRules a).check_status = a.check_status
  ∧ (applyContentRules a).stream = a.stream := by
  unfold applyContentRules
  split
  · exact ⟨rfl, rfl, rfl, rfl, rfl, rfl, rfl, rfl, rfl, rfl, rfl, rfl, rfl, rfl⟩
  · split
    · split
      · exact ⟨rfl, rfl, rfl, rfl, rfl, rfl, rfl, rfl, rfl, rfl, rfl, rfl, rfl, rfl⟩
      · exact ⟨rfl, rfl, rfl, rfl, rfl, rfl, rfl, rfl, rfl, rfl, rfl, rfl, rfl, rfl⟩
    · exact ⟨rfl, rfl, rfl, rfl, rfl, rfl, rfl, rfl, rfl, rfl, rfl, rfl, rfl, rfl⟩

/-- Shape of a successful build: the returned pair is the mutated arguments
together with the kwargs assembled from them and the resolved credentials. -/
theorem get_requests_kwargs_ok_eq (a : Arguments) (r : Arguments × Kwargs)
    (h : get_requests_kwargs a = Except.ok r) :
    ∃ creds, resolveAuth a.auth a.auth_type = Except.ok creds
      ∧ r = (applyContentRules a, assembleKwargs (applyContentRules a) creds) := by
  have hauth : (applyContentRules a).auth = a.auth :=
    (applyContentRules_preserves a).2.2.2.2.2.2.1
  have htype : (applyContentRules a).auth_type = a.auth_type :=
    (applyContentRules_preserves a).2.2.2.2.2.2.2.1
  simp only [get_requests_kwargs] at h
  rw [hauth, htype] at h
  cases hres : resolveAuth a.auth a.auth_type with
  | error e => rw [hres] at h; simp [Except.map] at h
  | ok creds =>
    rw [hres] at h
    simp only [Except.map, Except.ok.injEq] at h
    exact ⟨creds, rfl, h.symm⟩


/-- The builder factored through auth resolution on the original fields. -/
theorem get_requests_kwargs_eq_resolve (a : Arguments) :
    get_requests_kwargs a = (resolveAuth a.auth a.auth_type).map
      (fun creds => (applyContentRules a, assembleKwargs (applyContentRules a) creds)) := by
  have hauth := (applyContentRules_preserves a).2.2.2.2.2.2.1
  have htype := (applyContentRules_preserves a).2.2.2.2.2.2.2.1
  simp only [get_requests_kwargs, hauth, htype]

/-! ## Claims -/

/-- C1: `get_exist_status` is total and maps 300-399 without redirects to
ERROR_HTTP_3XX, 400-499 to ERROR_HTTP_4XX, 500-599 to ERROR_HTTP_5XX, and
every other code (including 300-399 with redirects allowed) to OK; the
boundary codes 299, 300, 399, 400, 499, 500, 599, 600 match this table. -/
theorem claim_C1 (c : Int) (r : Bool) :
    ((300 ≤ c ∧ c ≤ 399 ∧ r = false) → get_exist_status c r = ExitStatus.ERROR_HTTP_3XX)
  ∧ ((400 ≤ c ∧ c ≤ 499) → get_exist_status c r = ExitStatus.ERROR_HTTP_4XX)
  ∧ ((500 ≤ c ∧ c ≤ 599) → get_exist_status c r = ExitStatus.ERROR_HTTP_5XX)
  ∧ ((¬(300 ≤ c ∧ c ≤ 399 ∧ r = false) ∧ ¬(400 ≤ c ∧ c ≤ 499) ∧ ¬(500 ≤ c ∧ c ≤ 599))
       → get_exist_status c r = ExitStatus.OK)
  ∧ get_exist_status 299 r = ExitStatus.OK
  ∧ get_exist_status 300 r = (if r then ExitStatus.OK else ExitStatus.ERROR_HTTP_3XX)
  ∧ get_exist_status 399 r = (if r then ExitStatus.OK else ExitStatus.ERROR_HTTP_3XX)
  ∧ get_exist_status 400 r = ExitStatus.ERROR_HTTP_4XX
  ∧ get_exist_status 499 r = ExitStatus.ERROR_HTTP_4XX
  ∧ get_exist_status 500 r = ExitStatus.ERROR_HTTP_5XX
  ∧ get_exist_status 599 r = ExitStatus.ERROR_HTTP_5XX
  ∧ get_exist_status 600 r = ExitStatus.OK := by
  refine ⟨?_, ?_, ?_, ?_, ?_, ?_, ?_, ?_, ?_, ?_, ?_, ?_⟩
  · intro h
    unfold get_exist_status
    rw [if_pos ⟨h.1, h.2.1, h.2.2⟩]
  · intro h
    have hne : ¬(300 ≤ c ∧ c ≤ 399 ∧ r = false) := by
      rintro ⟨_, h2, _⟩; omega
    unfold get_exist_status
    rw [if_neg hne, if_pos h]
  · intro h
    have hne1 : ¬(300 ≤ c ∧ c ≤ 399 ∧ r = false) := by
      rintro ⟨_, h2, _⟩; omega
    have hne2 : ¬(400 ≤ c ∧ c ≤ 499) := by
      rintro ⟨_, h2⟩; omega
    unfold get_exist_status
    rw [if_neg hne1, if_neg hne2, if_pos h]
  · rintro ⟨h1, h2, h3⟩
    unfold get_exist_status
    rw [if_neg h1, if_neg h2, if_neg h3]
  · cases r <;> decide
  · cases r <;> decide
  · cases r <;> decide
  · cases r <;> decide
  · cases r <;> decide
  · cases r <;> decide
  · cases r <;> decide
  · cases r <;> decide

/-- C1 witness: the mapping applied at the concrete code 404 without
redirects yields ERROR_HTTP_4XX. -/
theorem claim_C1_witness : get_exist_status 404 false = ExitStatus.ERROR_HTTP_4XX :=
  (claim_C1 404 false).2.1 ⟨by decide, by decide⟩

/-- C2 counterexample: with `--debug` present in the raw arguments, a
transport timeout is still caught and converted to an exit status and a
stderr line — it does not propagate, so the driver does produce an
ExitStatus value on this recoverable-failure path. -/
theorem claim_C2_counterexample :
    mainRun true false sampleArgsJson sampleEnv
        TransportOutcome.timeout WriteOutcome.success
      = MainResult.exited ExitStatus.ERROR_TIMEOUT
          "\nhttp: error: Request timed out (5s).\n" := by
  rfl

/-- C2 (amended): in diagnostic (debug/traceback) mode a keyboard interrupt,
any generic transport exception, and any write-loop IOError propagate
unhandled past the driver with no ExitStatus produced; a transport timeout,
however, is exempt from the diagnostic override: it is caught
unconditionally and converted to ERROR_TIMEOUT with its error line. -/
theorem claim_C2_amended (rawD rawT : Bool) (args : Arguments) (env : Env)
    (hdiag : (rawD || rawT) = true)
    (hok : ∃ r, get_requests_kwargs args = Except.ok r) :
    (mainRun rawD rawT args env TransportOutcome.interrupt WriteOutcome.success
       = MainResult.raised PyExc.keyboardInterrupt "")
  ∧ (∀ k m, mainRun rawD rawT args env (TransportOutcome.failure k m) WriteOutcome.success
       = MainResult.raised (PyExc.generic k m) "")
  ∧ (∀ resp e m,
       mainRun rawD rawT args env (TransportOutcome.success resp) (WriteOutcome.ioError e m)
         = MainResult.raised (PyExc.ioError e m) (checkStage (applyContentRules args) env resp).2)
  ∧ (∀ w, mainRun rawD rawT args env TransportOutcome.timeout w
       = MainResult.exited ExitStatus.ERROR_TIMEOUT
           (errLine ("Request timed out (" ++ toString args.timeout ++ "s)."))) := by
  obtain ⟨r, hr⟩ := hok
  obtain ⟨creds, _, hre⟩ := get_requests_kwargs_ok_eq args r hr
  subst hre
  have htt : (applyContentRules args).timeout = args.timeout :=
    (applyContentRules_preserves args).2.2.2.2.2.2.2.2.2.1
  refine ⟨?_, ?_, ?_, ?_⟩ <;>
    cases rawD <;> cases rawT <;>
      simp_all [mainRun, htt]

/-- C2 amended witness: the interrupt part at a concrete diagnostic run. -/
theorem claim_C2_amended_witness :
    mainRun true false sampleArgsJson sampleEnv
        TransportOutcome.interrupt WriteOutcome.success
      = MainResult.raised PyExc.keyboardInterrupt "" :=
  (claim_C2_amended true false sampleArgsJson sampleEnv rfl ⟨_, rfl⟩).1

/-- C3 counterexample: on a concrete input the builder hands back a mutated
argument object — the header mapping has gained a Content-Type entry the
input did not have — so it does not leave its input Arguments unchanged. -/
theorem claim_C3_counterexample :
    mutatedOf (get_requests_kwargs sampleArgsJson) ≠ some sampleArgsJson
  ∧ (mutatedOf (get_requests_kwargs sampleArgsJson)).map
      (fun a => dictContains a.headers "Content-Type") = some true
  ∧ dictContains sampleArgsJson.headers "Content-Type" = false := by
  refine ⟨by decide, rfl, rfl⟩

/-- C3 (amended): the builder is deterministic — equal Arguments yield equal
results, with no I/O modelled anywhere in it — and on success the
RequestSpec shares the headers and data of the returned argument object;
but that returned object is the input mutated by the content rules
(Content-Type/Accept injection, body serialization), not the unchanged
input. -/
theorem claim_C3_amended (a b : Arguments) (h : a = b) :
    get_requests_kwargs a = get_requests_kwargs b
  ∧ (∀ r, get_requests_kwargs a = Except.ok r →
      r.1 = applyContentRules a ∧ r.2.headers = r.1.headers ∧ r.2.data = r.1.data) := by
  subst h
  refine ⟨rfl, ?_⟩
  intro r hr
  obtain ⟨creds, _, hre⟩ := get_requests_kwargs_ok_eq a r hr
  subst hre
  exact ⟨rfl, rfl, rfl⟩

/-- C3 amended witness: determinism at a concrete input. -/
theorem claim_C3_amended_witness :
    get_requests_kwargs sampleArgsJson = get_requests_kwargs sampleArgsJson :=
  (claim_C3_amended sampleArgsJson sampleArgsJson rfl).1

/-- C4: with an auth pair present, auth_type "digest" builds a digest
credential object, "basic" a basic one, and any other auth_type makes the
builder fail with the configuration error carrying that auth_type — and the
driver's outcome is then independent of the transport and write outcomes,
i.e. the transport is never invoked. -/
theorem claim_C4 (args : Arguments) (kv : String × String)
    (h : args.auth = some kv) :
    (args.auth_type = "digest" →
       get_requests_kwargs args = Except.ok
         (applyContentRules args,
          assembleKwargs (applyContentRules args) (some (Credentials.digest kv.1 kv.2)))
       ∧ ∀ r, get_requests_kwargs args = Except.ok r →
           r.2.auth = some (Credentials.digest kv.1 kv.2))
  ∧ (args.auth_type = "basic" →
       get_requests_kwargs args = Except.ok
         (applyContentRules args,
          assembleKwargs (applyContentRules args) (some (Credentials.basic kv.1 kv.2)))
       ∧ ∀ r, get_requests_kwargs args = Except.ok r →
           r.2.auth = some (Credentials.basic kv.1 kv.2))
  ∧ (args.auth_type ≠ "basic" → args.auth_type ≠ "digest" →
       get_requests_kwargs args = Except.error ⟨args.auth_type⟩
       ∧ ∀ (d tb : Bool) (env : Env) (t t' : TransportOutcome) (w w' : WriteOutcome),
           mainRun d tb args env t w = mainRun d tb args env t' w') := by
  refine ⟨?_, ?_, ?_⟩
  · intro ht
    have hres : get_requests_kwargs args = Except.ok
        (applyContentRules args,
         assembleKwargs (applyContentRules args) (some (Credentials.digest kv.1 kv.2))) := by
      rw [get_requests_kwargs_eq_resolve]
      simp [resolveAuth, h, ht, Except.map]
    refine ⟨hres, ?_⟩
    intro r hr
    rw [hres] at hr
    cases hr
    rfl
  · intro ht
    have hres : get_requests_kwargs args = Except.ok
        (applyContentRules args,
         assembleKwargs (applyContentRules args) (some (Credentials.basic kv.1 kv.2))) := by
      rw [get_requests_kwargs_eq_resolve]
      simp [resolveAuth, h, ht, Except.map]
    refine ⟨hres, ?_⟩
    intro r hr
    rw [hres] at hr
    cases hr
    rfl
  · intro hb hd
    have herr : get_requests_kwargs args = Except.error ⟨args.auth_type⟩ := by
      rw [get_requests_kwargs_eq_resolve]
      simp [resolveAuth, h, hb, hd, Except.map]
    refine ⟨herr, ?_⟩
    intro d tb env t w t' w'
    simp [mainRun, herr]

/-- C4 witness: the unrecognized auth_type "token" at a concrete input makes
the builder fail with the configuration error. -/
theorem claim_C4_witness :
    get_requests_kwargs sampleArgsBadAuth = Except.error ⟨"token"⟩ :=
  ((claim_C4 sampleArgsBadAuth ("u", "p") rfl).2.2 (by decide) (by decide)).1

/-- C5 counterexample: in the concrete timeout run with configured timeout 5
the driver does return ERROR_TIMEOUT, but the text written to stderr is the
framed error line, not exactly the bare message "Request timed out (5s).". -/
theorem claim_C5_counterexample :
    mainRun false false sampleArgsJson sampleEnv
        TransportOutcome.timeout WriteOutcome.success
      = MainResult.exited ExitStatus.ERROR_TIMEOUT
          "\nhttp: error: Request timed out (5s).\n"
  ∧ ("\nhttp: error: Request timed out (5s).\n" : String)
      ≠ "Request timed out (5s)." := by
  exact ⟨rfl, by decide⟩

/-- C5 (amended): for every run with diagnostics off in which the transport
raises a timeout and the configured timeout is 5, the driver returns
ERROR_TIMEOUT and the text written to stderr is exactly the single framed
error line carrying the user-visible message "Request timed out (5s)." —
that message prefixed by the fixed `http: error: ` tag and newline framing. -/
theorem claim_C5_amended (args : Arguments) (env : Env) (w : WriteOutcome)
    (hok : ∃ r, get_requests_kwargs args = Except.ok r)
    (ht : args.timeout = 5) :
    mainRun false false args env TransportOutcome.timeout w
      = MainResult.exited ExitStatus.ERROR_TIMEOUT
          "\nhttp: error: Request timed out (5s).\n" := by
  obtain ⟨r, hr⟩ := hok
  obtain ⟨creds, _, hre⟩ := get_requests_kwargs_ok_eq args r hr
  subst hre
  have htt : (applyContentRules args).timeout = args.timeout :=
    (applyContentRules_preserves args).2.2.2.2.2.2.2.2.2.1
  simp only [mainRun, hr, htt, ht, errLine]
  rfl

/-- C5 amended witness: the amended statement at a concrete run. -/
theorem claim_C5_amended_witness :
    mainRun false false sampleArgsJson sampleEnv
        TransportOutcome.timeout WriteOutcome.success
      = MainResult.exited ExitStatus.ERROR_TIMEOUT
          "\nhttp: error: Request timed out (5s).\n" :=
  claim_C5_amended sampleArgsJson sampleEnv WriteOutcome.success ⟨_, rfl⟩ rfl

/-- Under JSON intent with body data present and no exact-key Content-Type
header, the mutated headers are the input headers with Content-Type set to
the JSON value, possibly followed by an Accept default; the data is the
serialized (or emptied) body. -/
theorem applyContentRules_json_case (args : Arguments)
    (hcond : (args.json || auto_json args) = true)
    (hct : dictContains args.headers "Content-Type" = false)
    (hdata : dataTruthy args.data = true) :
    ((applyContentRules args).headers = dictSet args.headers "Content-Type" JSON
      ∨ (applyContentRules args).headers =
          dictSet (dictSet args.headers "Content-Type" JSON) "Accept" "application/json")
  ∧ (applyContentRules args).data =
      (match args.data with
       | RequestData.dict m =>
           if m.isEmpty then RequestData.none else RequestData.str (jsonDumps m)
       | other => other) := by
  unfold applyContentRules
  rw [hcond]
  by_cases hacc :
      dictContains (dictSet args.headers "Content-Type" JSON) "Accept" = true
  · simp [hct, hdata, hacc]
  · simp [hct, hdata, hacc]

/-- Under JSON intent with body data present and no exact-key Content-Type
header, the mutated header mapping maps Content-Type to the JSON value. -/
theorem applyContentRules_ct_lookup (args : Arguments)
    (hcond : (args.json || auto_json args) = true)
    (hct : dictContains args.headers "Content-Type" = false)
    (hdata : dataTruthy args.data = true) :
    dictLookup (applyContentRules args).headers "Content-Type" = some JSON := by
  rcases (applyContentRules_json_case args hcond hct hdata).1 with hh | hh
  · rw [hh, dictLookup_dictSet_self]
  · rw [hh, dictLookup_dictSet_other _ _ _ _ (by decide), dictLookup_dictSet_self]

/-- C6: with non-empty body data, json flag unset and form flag unset (and no
explicit Content-Type header), the built RequestSpec carries
Content-Type `application/json; charset=utf-8`, and when the body data is a
structured mapping the body is its JSON serialization. -/
theorem claim_C6 (args : Arguments)
    (hdata : dataTruthy args.data = true)
    (hjson : args.json = false)
    (hform : args.form = false)
    (hct : dictContains args.headers "Content-Type" = false) :
    dictLookup (applyContentRules args).headers "Content-Type" = some JSON
  ∧ (∀ d, args.data = RequestData.dict d →
      (applyContentRules args).data = RequestData.str (jsonDumps d))
  ∧ (∀ r, get_requests_kwargs args = Except.ok r →
      dictLookup r.2.headers "Content-Type" = some JSON
      ∧ ∀ d, args.data = RequestData.dict d →
          r.2.data = RequestData.str (jsonDumps d)) := by
  have hcond : (args.json || auto_json args) = true := by
    simp [auto_json, hjson, hform, hdata]
  have hlook := applyContentRules_ct_lookup args hcond hct hdata
  have hdat : ∀ d, args.data = RequestData.dict d →
      (applyContentRules args).data = RequestData.str (jsonDumps d) := by
    intro d hd
    have h2 := (applyContentRules_json_case args hcond hct hdata).2
    rw [hd] at h2
    rw [h2]
    have hde : d.isEmpty = false := by
      rw [hd] at hdata
      simpa [dataTruthy] using hdata
    simp [hde]
  refine ⟨hlook, hdat, ?_⟩
  intro r hr
  obtain ⟨creds, _, hre⟩ := get_requests_kwargs_ok_eq args r hr
  subst hre
  exact ⟨hlook, hdat⟩

/-- C6 witness: the concrete implicit-JSON argument set gets the JSON
Content-Type injected. -/
theorem claim_C6_witness :
    dictLookup (applyContentRules sampleArgsJson).headers "Content-Type" = some JSON :=
  (claim_C6 sampleArgsJson rfl rfl rfl rfl).1

/-- C7: under JSON intent (explicit json flag or auto-detected) with an empty
mapping as body data, the built body is absent (`None`), never the
two-character empty-object text. -/
theorem claim_C7 (args : Arguments)
    (hdata : args.data = RequestData.dict [])
    (hintent : args.json = true ∨ auto_json args = true) :
    (applyContentRules args).data = RequestData.none
  ∧ (applyContentRules args).data ≠ RequestData.str "\x7b\x7d"
  ∧ (∀ r, get_requests_kwargs args = Except.ok r →
      r.2.data = RequestData.none ∧ r.2.data ≠ RequestData.str "\x7b\x7d") := by
  have hj : args.json = true := by
    rcases hintent with h | h
    · exact h
    · rw [auto_json, hdata] at h
      simp [dataTruthy] at h
  have hd : (applyContentRules args).data = RequestData.none := by
    unfold applyContentRules
    rw [hj]
    simp [hdata]
  have hne : (applyContentRules args).data ≠ RequestData.str "\x7b\x7d" := by
    rw [hd]
    intro h
    exact RequestData.noConfusion h
  refine ⟨hd, hne, ?_⟩
  intro r hr
  obtain ⟨creds, _, hre⟩ := get_requests_kwargs_ok_eq args r hr
  subst hre
  exact ⟨hd, hne⟩

/-- C7 witness: the explicit json flag with an empty data dict yields an
absent body. -/
theorem claim_C7_witness :
    (applyContentRules sampleArgsEmptyJson).data = RequestData.none :=
  (claim_C7 sampleArgsEmptyJson rfl (Or.inl rfl)).1

/-- C8: with diagnostics off, a broken pipe (IOError with errno EPIPE) during
the write loop is swallowed: the driver exits — no exception escapes — with
the status computed before the write (the same status the successful-write
run returns), and env.stderr gains exactly one newline beyond what the
check-status stage wrote. -/
theorem claim_C8 (args : Arguments) (env : Env) (resp : Response) (m : String)
    (hok : ∃ r, get_requests_kwargs args = Except.ok r) :
    mainRun false false args env (TransportOutcome.success resp)
        (WriteOutcome.ioError EPIPE m)
      = MainResult.exited (checkStage (applyContentRules args) env resp).1
          ((checkStage (applyContentRules args) env resp).2 ++ "\n")
  ∧ mainRun false false args env (TransportOutcome.success resp) WriteOutcome.success
      = MainResult.exited (checkStage (applyContentRules args) env resp).1
          (checkStage (applyContentRules args) env resp).2 := by
  obtain ⟨r, hr⟩ := hok
  obtain ⟨creds, _, hre⟩ := get_requests_kwargs_ok_eq args r hr
  subst hre
  constructor <;> simp [mainRun, hr]

/-- C8 witness: the broken-pipe case at a concrete run. -/
theorem claim_C8_witness :
    mainRun false false sampleArgsJson sampleEnv
        (TransportOutcome.success sampleResp) (WriteOutcome.ioError EPIPE "Broken pipe")
      = MainResult.exited
          (checkStage (applyContentRules sampleArgsJson) sampleEnv sampleResp).1
          ((checkStage (applyContentRules sampleArgsJson) sampleEnv sampleResp).2 ++ "\n") :=
  (claim_C8 sampleArgsJson sampleEnv sampleResp "Broken pipe" ⟨_, rfl⟩).1

/-- C9: with the form flag set (json unset, per the §3 invariant that json
and form are mutually exclusive) and a non-empty file-upload mapping, the
builder injects no Content-Type: the headers pass through unchanged, so the
RequestSpec carries Content-Type exactly when the input did. -/
theorem claim_C9 (args : Arguments)
    (hform : args.form = true)
    (hjson : args.json = false)
    (hfiles : args.files ≠ []) :
    (applyContentRules args).headers = args.headers
  ∧ (∀ r, get_requests_kwargs args = Except.ok r →
      r.2.headers = args.headers
      ∧ dictContains r.2.headers "Content-Type"
          = dictContains args.headers "Content-Type") := by
  have hfe : args.files.isEmpty = false := by
    cases hfl : args.files with
    | nil => exact absurd hfl hfiles
    | cons a l => rfl
  have hcond : (args.json || auto_json args) = false := by
    simp [auto_json, hjson, hform]
  have hh : (applyContentRules args).headers = args.headers := by
    unfold applyContentRules
    rw [hcond, hform]
    simp [hfe]
  refine ⟨hh, ?_⟩
  intro r hr
  obtain ⟨creds, _, hre⟩ := get_requests_kwargs_ok_eq args r hr
  subst hre
  refine ⟨hh, ?_⟩
  show dictContains (applyContentRules args).headers "Content-Type"
      = dictContains args.headers "Content-Type"
  rw [hh]

/-- C9 witness: form intent with an attached file leaves the headers alone. -/
theorem claim_C9_witness :
    (applyContentRules sampleArgsForm).headers = sampleArgsForm.headers :=
  (claim_C9 sampleArgsForm rfl rfl (by decide)).1

/-- C10: the builder's Content-Type presence check is case-sensitive on the
exact key: with a lower-case `content-type` entry present but no
`Content-Type`, under JSON intent with body data, the canonical
`Content-Type` is still injected, and the resulting headers carry both keys. -/
theorem claim_C10 (args : Arguments)
    (hlc : dictContains args.headers "content-type" = true)
    (huc : dictContains args.headers "Content-Type" = false)
    (hdata : dataTruthy args.data = true)
    (hintent : args.json = true ∨ auto_json args = true) :
    dictLookup (applyContentRules args).headers "Content-Type" = some JSON
  ∧ dictContains (applyContentRules args).headers "Content-Type" = true
  ∧ dictContains (applyContentRules args).headers "content-type" = true
  ∧ (∀ r, get_requests_kwargs args = Except.ok r →
      dictContains r.2.headers "Content-Type" = true
      ∧ dictContains r.2.headers "content-type" = true) := by
  have hcond : (args.json || auto_json args) = true := by
    rcases hintent with h | h <;> simp [h]
  have hcase := applyContentRules_json_case args hcond huc hdata
  have hlook := applyContentRules_ct_lookup args hcond huc hdata
  have hcu : dictContains (applyContentRules args).headers "Content-Type" = true := by
    rcases hcase.1 with hh | hh
    · rw [hh, dictContains_dictSet_self]
    · rw [hh, dictContains_dictSet_other _ _ _ _ (by decide), dictContains_dictSet_self]
  have hcl : dictContains (applyContentRules args).headers "content-type" = true := by
    rcases hcase.1 with hh | hh
    · rw [hh, dictContains_dictSet_other _ _ _ _ (by decide)]
      exact hlc
    · rw [hh, dictContains_dictSet_other _ _ _ _ (by decide),
          dictContains_dictSet_other _ _ _ _ (by decide)]
      exact hlc
  refine ⟨hlook, hcu, hcl, ?_⟩
  intro r hr
  obtain ⟨creds, _, hre⟩ := get_requests_kwargs_ok_eq args r hr
  subst hre
  exact ⟨hcu, hcl⟩

/-- C10 witness: both spellings of the key are present after the build at a
concrete input. -/
theorem claim_C10_witness :
    dictContains (applyContentRules sampleArgsLowerCT).headers "Content-Type" = true
  ∧ dictContains (applyContentRules sampleArgsLowerCT).headers "content-type" = true :=
  ⟨(claim_C10 sampleArgsLowerCT rfl rfl rfl (Or.inr rfl)).2.1,
   (claim_C10 sampleArgsLowerCT rfl rfl rfl (Or.inr rfl)).2.2.1⟩
